import Mathlib

/-!
Verification of the room-scoped chat/location server of this repository.

The repository contains the main HTTP server (the tested entry point, whose
handlers appear in `src/unnamed/part_000`; it is embedded below as namespace
`Server`) and a smaller divergent variant (`src/server.js`, embedded as
namespace `AltServer`).  Handlers are embedded as pure functions from a
server state and request parameters to the new state, the HTTP response and
a trace of externally visible actions (SSE frames written to subscriber
handles, handle registration, forced stream closes).
-/

namespace LocationChat

/-- Result of JavaScript float parsing (`parseFloat`) or a JSON number as the
server sees it: the server never computes with coordinates, it only tests
`isNaN` / `Number.isFinite` and stores them, so a finite double is modelled
as its rational value.  `parseFloat(null)` (absent query parameter) is `nan`. -/
inductive JsNum where
  | nan
  | posInf
  | negInf
  | finite (q : Rat)
deriving DecidableEq

/-- JavaScript `isNaN` on a parsed number. -/
def JsNum.isNaN : JsNum → Bool
  | .nan => true
  | _ => false

/-- JavaScript `Number.isFinite` on a number. -/
def JsNum.isFinite : JsNum → Bool
  | .finite _ => true
  | _ => false

/-- JavaScript `x || d` for a string-valued query/body parameter `x`:
`null` (absent, modelled as `none`) and the empty string are falsy and give
the default `d`. -/
def jsOr (o : Option String) (d : String) : String :=
  match o with
  | none => d
  | some s => if s == "" then d else s

/-- JavaScript truthiness of a string-valued parameter: absent (`null`) and
the empty string are falsy. -/
def truthy (o : Option String) : Bool :=
  match o with
  | none => false
  | some s => s != ""

/-- Lookup `obj[k]` in a JavaScript object / `Map`, modelled as an
insertion-ordered association list with (reachably) unique keys. -/
def objGet {α : Type} (m : List (String × α)) (k : String) : Option α :=
  match m with
  | [] => none
  | p :: rest => if p.1 == k then some p.2 else objGet rest k

/-- Assignment `obj[k] = v` (or `Map.set`): overwrites the existing binding
in place, keeping its position, else appends a new binding at the end. -/
def objSet {α : Type} (m : List (String × α)) (k : String) (v : α) :
    List (String × α) :=
  match m with
  | [] => [(k, v)]
  | p :: rest => if p.1 == k then (k, v) :: rest else p :: objSet rest k v

/-- Deletion `delete obj[k]` (or `Map.delete`). -/
def objDelete {α : Type} (m : List (String × α)) (k : String) :
    List (String × α) :=
  m.filter (fun p => p.1 != k)

/-- `Object.keys`, in insertion order. -/
def objKeys {α : Type} (m : List (String × α)) : List String :=
  m.map (fun p => p.1)

/-- `Object.values` / `Map.values`, in insertion order. -/
def objValues {α : Type} (m : List (String × α)) : List α :=
  m.map (fun p => p.2)

/-- Insertion into a JavaScript `Set` of subscriber handles (handles are
modelled as numeric identifiers): a no-op when already present, else
appended in insertion order. -/
def setAdd (l : List Nat) (h : Nat) : List Nat :=
  if l.contains h then l else l ++ [h]

/-- A chat message `{name, text, time}` as stored in a room's history. -/
structure Message where
  name : String
  text : String
  time : Int
deriving DecidableEq

/-- A presence record `{name, lat, lon, time}` as stored in a room's
location board. -/
structure Location where
  name : String
  lat : JsNum
  lon : JsNum
  time : Int
deriving DecidableEq

/-- SSE event names used by the servers. -/
inductive EventName where
  | message
  | location
  | remove
deriving DecidableEq

/-- Payload of an SSE frame.  `pos` is the time-less `{name, lat, lon}`
payload used by the `src/server.js` variant. -/
inductive Payload where
  | msg (m : Message)
  | loc (l : Location)
  | rem (name : String)
  | pos (name : String) (lat lon : JsNum)
deriving DecidableEq

/-- Externally visible action performed by a handler, in program order:
an SSE frame written to a subscriber handle, the registration of a handle
into a room's subscriber set, or a forced close of a handle's stream. -/
inductive Action where
  | send (handle : Nat) (event : EventName) (data : Payload)
  | register (handle : Nat)
  | close (handle : Nat)
deriving DecidableEq

/-- Body of an HTTP response, abstracting the JSON serialisations. -/
inductive Body where
  | text (s : String)
  | inviteInfo (room password : String)
  | tokenInfo (token link : String)
  | roomList (names : List String)
  | stream
deriving DecidableEq

/-- An HTTP response: status code and body. -/
structure Response where
  status : Nat
  body : Body
deriving DecidableEq

/-- Suffix of the last `k` elements of a list: the shape of a bounded FIFO
history after trimming. -/
def lastN {α : Type} (k : Nat) (l : List α) : List α :=
  l.drop (l.length - k)


/-!
Embedding of the main server (the tested entry point of the repository,
`src/unnamed/part_000`): multi-room chat with SSE fan-out, bounded message
history, presence board, room deletion and the invite store.
-/

namespace Server

/-- A room of the main server:
`{ password, clients, messages, locations }`.  Subscriber handles
(`http.ServerResponse` streams) are identified by numbers. -/
structure Room where
  password : String
  clients : List Nat
  messages : List LocationChat.Message
  locations : List (String × LocationChat.Location)
deriving DecidableEq

/-- An invite entry
`{ room, password, expiry (ms timestamp), maxUses, uses }`. -/
structure Invite where
  room : String
  password : String
  expiry : Int
  maxUses : Int
  uses : Int
deriving DecidableEq

/-- The global mutable state of the main server: the `rooms` and `invites`
registries. -/
structure ServerState where
  rooms : List (String × Room)
  invites : List (String × Invite)
deriving DecidableEq

/-- `getOrCreateRoom(roomName, password)`: normalises the name
(`roomName || 'default'`) and password (`password || ''`); returns the
existing room when the password matches (`none` on mismatch), else creates
the room.  The returned registry carries the mutation; callers address the
room under the same normalised name. -/
def getOrCreateRoom (rooms : List (String × Room))
    (roomName password : Option String) :
    List (String × Room) × Option Room :=
  let name := jsOr roomName "default"
  let pwd := jsOr password ""
  match objGet rooms name with
  | some room =>
      (rooms, if room.password == pwd then some room else none)
  | none =>
      let room : Room := ⟨pwd, [], [], []⟩
      (objSet rooms name room, some room)

/-- `broadcast(roomName, event, data)`: writes the framed event to every
handle in the room's client set (iterating a copy); a handle whose write
raises (`writeFails h = true`) is removed from the set and receives
nothing, the others receive the frame in set order.  Returns the updated
registry and the frames actually delivered. -/
def broadcast (writeFails : Nat → Bool) (rooms : List (String × Room))
    (roomName : String) (event : LocationChat.EventName)
    (data : LocationChat.Payload) :
    List (String × Room) × List LocationChat.Action :=
  match objGet rooms roomName with
  | none => (rooms, [])
  | some room =>
      let survivors := room.clients.filter (fun h => !writeFails h)
      (objSet rooms roomName { room with clients := survivors },
       survivors.map (fun h => LocationChat.Action.send h event data))

/-- History append of the `/message` handlers:
`messages.push(msg); if (messages.length > 200) messages.shift();`. -/
def pushTrim (msgs : List LocationChat.Message) (m : LocationChat.Message) :
    List LocationChat.Message :=
  let l := msgs ++ [m]
  if 200 < l.length then l.drop 1 else l

/-- The `/events` handler: resolves or creates the room, replays the
buffered messages in append order, then the presence records, and only then
registers the handle in the room's subscriber set (403 on password
mismatch). -/
def events (s : ServerState) (room password : Option String) (handle : Nat) :
    ServerState × LocationChat.Response × List LocationChat.Action :=
  let roomName := jsOr room "default"
  match getOrCreateRoom s.rooms room password with
  | (rooms', none) =>
      ({ s with rooms := rooms' },
       ⟨403, LocationChat.Body.text "Invalid room password"⟩, [])
  | (rooms', some r) =>
      let replayMsgs := r.messages.map (fun m =>
        LocationChat.Action.send handle LocationChat.EventName.message
          (LocationChat.Payload.msg m))
      let replayLocs := (objValues r.locations).map (fun l =>
        LocationChat.Action.send handle LocationChat.EventName.location
          (LocationChat.Payload.loc l))
      let r' := { r with clients := setAdd r.clients handle }
      ({ s with rooms := objSet rooms' roomName r' },
       ⟨200, LocationChat.Body.stream⟩,
       replayMsgs ++ replayLocs ++ [LocationChat.Action.register handle])

/-- Common body of the `/message` POST handler and the `/message` GET
handler of the main server (they are textually identical after parameter
extraction): resolves or creates the room (403 on mismatch); when `name`
and `text` are both truthy, appends the message (evicting the oldest past
200) and broadcasts it; always answers 200 "ok". -/
def message (writeFails : Nat → Bool) (now : Int) (s : ServerState)
    (room password name text : Option String) :
    ServerState × LocationChat.Response × List LocationChat.Action :=
  let roomName := jsOr room "default"
  match getOrCreateRoom s.rooms room password with
  | (rooms', none) =>
      ({ s with rooms := rooms' },
       ⟨403, LocationChat.Body.text "Invalid room password"⟩, [])
  | (rooms', some r) =>
      if truthy name && truthy text then
        let msg : LocationChat.Message := ⟨name.getD "", text.getD "", now⟩
        let r' := { r with messages := pushTrim r.messages msg }
        let rooms2 := objSet rooms' roomName r'
        let (rooms3, acts) := broadcast writeFails rooms2 roomName
          LocationChat.EventName.message (LocationChat.Payload.msg msg)
        ({ s with rooms := rooms3 }, ⟨200, LocationChat.Body.text "ok"⟩, acts)
      else
        ({ s with rooms := rooms' }, ⟨200, LocationChat.Body.text "ok"⟩, [])

/-- The `/location` GET handler of the main server.  `lat`/`lon` are the
`parseFloat` results of the query parameters (`nan` when absent or
unparsable).  When `name` is truthy and neither coordinate is NaN, the
presence entry is overwritten and the record broadcast; in every
authorised case the answer is 200 "ok".  (The POST variant checks
`typeof lat === 'number'` instead of `!isNaN`.) -/
def location (writeFails : Nat → Bool) (now : Int) (s : ServerState)
    (room password name : Option String) (lat lon : LocationChat.JsNum) :
    ServerState × LocationChat.Response × List LocationChat.Action :=
  let roomName := jsOr room "default"
  match getOrCreateRoom s.rooms room password with
  | (rooms', none) =>
      ({ s with rooms := rooms' },
       ⟨403, LocationChat.Body.text "Invalid room password"⟩, [])
  | (rooms', some r) =>
      if truthy name && !lat.isNaN && !lon.isNaN then
        let loc : LocationChat.Location := ⟨name.getD "", lat, lon, now⟩
        let r' := { r with locations := objSet r.locations (name.getD "") loc }
        let rooms2 := objSet rooms' roomName r'
        let (rooms3, acts) := broadcast writeFails rooms2 roomName
          LocationChat.EventName.location (LocationChat.Payload.loc loc)
        ({ s with rooms := rooms3 }, ⟨200, LocationChat.Body.text "ok"⟩, acts)
      else
        ({ s with rooms := rooms' }, ⟨200, LocationChat.Body.text "ok"⟩, [])

/-- The `/logout` GET handler: deletes the presence entry for `name` (when
present) and broadcasts a `remove` event; always 200 "ok" when
authorised. -/
def logout (writeFails : Nat → Bool) (s : ServerState)
    (room password name : Option String) :
    ServerState × LocationChat.Response × List LocationChat.Action :=
  let roomName := jsOr room "default"
  match getOrCreateRoom s.rooms room password with
  | (rooms', none) =>
      ({ s with rooms := rooms' },
       ⟨403, LocationChat.Body.text "Invalid room password"⟩, [])
  | (rooms', some r) =>
      if truthy name && (objGet r.locations (name.getD "")).isSome then
        let r' := { r with locations := objDelete r.locations (name.getD "") }
        let rooms2 := objSet rooms' roomName r'
        let (rooms3, acts) := broadcast writeFails rooms2 roomName
          LocationChat.EventName.remove (LocationChat.Payload.rem (name.getD ""))
        ({ s with rooms := rooms3 }, ⟨200, LocationChat.Body.text "ok"⟩, acts)
      else
        ({ s with rooms := rooms' }, ⟨200, LocationChat.Body.text "ok"⟩, [])

/-- The `/rooms` GET handler: lists the room names. -/
def roomsIndex (s : ServerState) :
    ServerState × LocationChat.Response × List LocationChat.Action :=
  (s, ⟨200, LocationChat.Body.roomList (objKeys s.rooms)⟩, [])

/-- The `/deleteRoom` GET handler: 404 when the room is absent, 403 on
password mismatch; otherwise ends every live subscriber stream (a `close`
signal per handle, in set order), removes the room and answers
200 "deleted". -/
def deleteRoom (s : ServerState) (room password : Option String) :
    ServerState × LocationChat.Response × List LocationChat.Action :=
  let roomName := jsOr room "default"
  let pwd := jsOr password ""
  match objGet s.rooms roomName with
  | none => (s, ⟨404, LocationChat.Body.text "Room not found"⟩, [])
  | some r =>
      if r.password == pwd then
        ({ s with rooms := objDelete s.rooms roomName },
         ⟨200, LocationChat.Body.text "deleted"⟩,
         r.clients.map LocationChat.Action.close)
      else
        (s, ⟨403, LocationChat.Body.text "Invalid room password"⟩, [])

/-- The `/invite/create` GET handler.  `token` stands for the fresh random
token from `crypto.randomBytes`; `expiryParam`/`maxUsesParam` are the
parsed integer query parameters (`none` when the parameter is absent or
empty).  Requires the room to exist (404) with matching password (403);
`maxUses` is clamped to a minimum of 1, the expiry is absolute
(`now + minutes·60000`). -/
def inviteCreate (now : Int) (token : String) (s : ServerState)
    (room password : Option String) (expiryParam maxUsesParam : Option Int) :
    ServerState × LocationChat.Response × List LocationChat.Action :=
  if !truthy room then
    (s, ⟨400, LocationChat.Body.text "Missing room"⟩, [])
  else
    let roomName := (room.getD "")
    let pwd := jsOr password ""
    match objGet s.rooms roomName with
    | none => (s, ⟨404, LocationChat.Body.text "Room not found"⟩, [])
    | some r =>
        if r.password == pwd then
          let expiryMinutes := expiryParam.getD 1440
          let maxUsesRaw := maxUsesParam.getD 1
          let maxUses := if maxUsesRaw < 1 then 1 else maxUsesRaw
          let inv : Invite := ⟨roomName, pwd, now + expiryMinutes * 60000,
            maxUses, 0⟩
          ({ s with invites := objSet s.invites token inv },
           ⟨200, LocationChat.Body.tokenInfo token
             ("/invite?token=" ++ token)⟩, [])
        else
          (s, ⟨403, LocationChat.Body.text "Invalid room password"⟩, [])

/-- The `/invite` (and `/invite/join`) GET handler: 404 for a falsy or
unknown token; when `now` is past the expiry, the entry is deleted and the
answer is 410; otherwise the use counter is incremented, the entry is
deleted once `uses ≥ maxUses`, and the snapshotted `{room, password}` is
returned. -/
def inviteJoin (now : Int) (s : ServerState) (token : Option String) :
    ServerState × LocationChat.Response × List LocationChat.Action :=
  if !truthy token then
    (s, ⟨404, LocationChat.Body.text "Invalid token"⟩, [])
  else
    let t := token.getD ""
    match objGet s.invites t with
    | none => (s, ⟨404, LocationChat.Body.text "Invalid token"⟩, [])
    | some inv =>
        if inv.expiry < now then
          ({ s with invites := objDelete s.invites t },
           ⟨410, LocationChat.Body.text "Invite expired"⟩, [])
        else
          let inv' := { inv with uses := inv.uses + 1 }
          let invites' :=
            if inv.maxUses ≤ inv'.uses then objDelete s.invites t
            else objSet s.invites t inv'
          ({ s with invites := invites' },
           ⟨200, LocationChat.Body.inviteInfo inv.room inv.password⟩, [])

/-- The `/checkRoom` GET handler: 404 when the room is absent, 403 on
password mismatch, 200 "ok" on match; never mutates anything. -/
def checkRoom (s : ServerState) (room password : Option String) :
    ServerState × LocationChat.Response × List LocationChat.Action :=
  let roomName := jsOr room "default"
  let pwd := jsOr password ""
  match objGet s.rooms roomName with
  | none => (s, ⟨404, LocationChat.Body.text "not found"⟩, [])
  | some r =>
      if r.password == pwd then (s, ⟨200, LocationChat.Body.text "ok"⟩, [])
      else (s, ⟨403, LocationChat.Body.text "invalid"⟩, [])

/-- A request to one of the dynamic endpoints of the main server. -/
inductive Request where
  | events (room password : Option String) (handle : Nat)
  | message (room password name text : Option String)
  | location (room password name : Option String)
      (lat lon : LocationChat.JsNum)
  | logout (room password name : Option String)
  | roomsIndex
  | deleteRoom (room password : Option String)
  | inviteCreate (room password : Option String)
      (expiryParam maxUsesParam : Option Int) (token : String)
  | inviteJoin (token : Option String)
  | checkRoom (room password : Option String)

/-- Dispatch of one request to its handler (`writeFails` models which
subscriber stream writes raise; `now` is `Date.now()`). -/
def step (writeFails : Nat → Bool) (now : Int) (s : ServerState) :
    Request → ServerState × LocationChat.Response × List LocationChat.Action
  | .events room password handle => events s room password handle
  | .message room password name text =>
      message writeFails now s room password name text
  | .location room password name lat lon =>
      location writeFails now s room password name lat lon
  | .logout room password name => logout writeFails s room password name
  | .roomsIndex => roomsIndex s
  | .deleteRoom room password => deleteRoom s room password
  | .inviteCreate room password e m token =>
      inviteCreate now token s room password e m
  | .inviteJoin token => inviteJoin now s token
  | .checkRoom room password => checkRoom s room password

end Server

/-!
Embedding of the divergent `src/server.js` variant.  It defaults an absent
room parameter to the empty string (not to "default"), keeps presence in a
`Map` of time-less markers, buffers no messages, rejects non-finite
coordinates with 400, registers an `/events` subscriber before replaying
the markers, and lets `/invite/create` overwrite an existing room's
password.
-/

namespace AltServer

/-- A marker `{lat, lon}` of the `markers` map. -/
structure Marker where
  lat : LocationChat.JsNum
  lon : LocationChat.JsNum
deriving DecidableEq

/-- A room of the variant:
`{ password, clients, markers, messages }` (the `messages` array is never
written by this variant). -/
structure Room where
  password : String
  clients : List Nat
  markers : List (String × Marker)
  messages : List LocationChat.Message
deriving DecidableEq

/-- An invite entry of the variant: `{ room, password }` with no expiry and
no use limit. -/
structure InviteInfo where
  room : String
  password : String
deriving DecidableEq

/-- The global state of the variant. -/
structure ServerState where
  rooms : List (String × Room)
  invites : List (String × InviteInfo)
deriving DecidableEq

/-- The `/events` handler of the variant: creates the room on demand
(403 on password mismatch), then registers the handle in the client set and
only afterwards replays the current markers to it. -/
def events (s : ServerState) (room password : Option String) (handle : Nat) :
    ServerState × LocationChat.Response × List LocationChat.Action :=
  let roomName := jsOr room ""
  let pwd := jsOr password ""
  let createRoom : Room := ⟨pwd, [], [], []⟩
  let rooms0 := match objGet s.rooms roomName with
    | some _ => s.rooms
    | none => objSet s.rooms roomName createRoom
  let r := match objGet s.rooms roomName with
    | some r => r
    | none => createRoom
  if r.password != pwd then
    ({ s with rooms := rooms0 },
     ⟨403, LocationChat.Body.text "Forbidden"⟩, [])
  else
    let r' := { r with clients := setAdd r.clients handle }
    ({ s with rooms := objSet rooms0 roomName r' },
     ⟨200, LocationChat.Body.stream⟩,
     LocationChat.Action.register handle ::
       r.markers.map (fun p =>
         LocationChat.Action.send handle LocationChat.EventName.location
           (LocationChat.Payload.pos p.1 p.2.lat p.2.lon)))

/-- The `/location` GET handler of the variant: 403 when the room is absent
or the password mismatches; 400 "Bad Request" when either parsed
coordinate is not finite; otherwise overwrites the marker for `name`,
broadcasts the time-less `location` payload to every client, and answers
204. -/
def location (s : ServerState) (room password name : Option String)
    (lat lon : LocationChat.JsNum) :
    ServerState × LocationChat.Response × List LocationChat.Action :=
  let roomName := jsOr room ""
  let pwd := jsOr password ""
  let uname := jsOr name ""
  match objGet s.rooms roomName with
  | none => (s, ⟨403, LocationChat.Body.text "Forbidden"⟩, [])
  | some r =>
      if r.password != pwd then
        (s, ⟨403, LocationChat.Body.text "Forbidden"⟩, [])
      else if !lat.isFinite || !lon.isFinite then
        (s, ⟨400, LocationChat.Body.text "Bad Request"⟩, [])
      else
        let r' := { r with markers := objSet r.markers uname ⟨lat, lon⟩ }
        ({ s with rooms := objSet s.rooms roomName r' },
         ⟨204, LocationChat.Body.text ""⟩,
         r.clients.map (fun h =>
           LocationChat.Action.send h LocationChat.EventName.location
             (LocationChat.Payload.pos uname lat lon)))

/-- The `/invite/create` GET handler of the variant (`token` stands for the
random token): creates the room when absent, but when the room exists and a
non-empty password is supplied it overwrites the stored room password
before snapshotting it into the invite entry. -/
def inviteCreate (token : String) (s : ServerState)
    (room password : Option String) :
    ServerState × LocationChat.Response × List LocationChat.Action :=
  let roomName := jsOr room ""
  let pwd := jsOr password ""
  let (rooms', r) :=
    match objGet s.rooms roomName with
    | none =>
        let createRoom : Room := ⟨pwd, [], [], []⟩
        (objSet s.rooms roomName createRoom, createRoom)
    | some r =>
        if pwd != "" then
          let r' := { r with password := pwd }
          (objSet s.rooms roomName r', r')
        else (s.rooms, r)
  let invites' := objSet s.invites token ⟨roomName, r.password⟩
  ({ s with rooms := rooms', invites := invites' },
   ⟨200, LocationChat.Body.tokenInfo token ("/invite?token=" ++ token)⟩, [])

end AltServer

namespace Server

/-- Iteration of successive `/invite` redemptions of the same token at the
given sequence of times: the list of responses and the final state. -/
def redeemSeq (token : Option String) (times : List Int) (s : ServerState) :
    List LocationChat.Response × ServerState :=
  match times with
  | [] => ([], s)
  | now :: rest =>
      let out := inviteJoin now s token
      let next := redeemSeq token rest out.1
      (out.2.1 :: next.1, next.2)

/-- Relation between two room registries: every room present in the first
is still present in the second, with an unchanged password. -/
def roomsPreservePwd (m m' : List (String × Room)) : Prop :=
  ∀ n r, objGet m n = some r →
    ∃ r', objGet m' n = some r' ∧ r'.password = r.password

end Server

/-! Basic lemmas about the JavaScript-object operations. -/

theorem objGet_objSet_self {α : Type} (m : List (String × α)) (k : String)
    (v : α) : objGet (objSet m k v) k = some v := by
  induction m with
  | nil => simp [objGet, objSet]
  | cons p rest ih =>
      by_cases h : p.1 = k
      · simp [objGet, objSet, h]
      · simp only [objSet, objGet, beq_iff_eq, h, if_false, if_neg h]
        exact ih

theorem objGet_objSet_ne {α : Type} (m : List (String × α)) {k k' : String}
    (v : α) (h : k ≠ k') : objGet (objSet m k v) k' = objGet m k' := by
  induction m with
  | nil => simp [objGet, objSet, h]
  | cons p rest ih =>
      by_cases hp : p.1 = k
      · simp [objGet, objSet, hp, h]
      · by_cases hp' : p.1 = k'
        · simp [objGet, objSet, hp, hp', Ne.symm h]
        · simp only [objSet, objGet, beq_iff_eq, hp, hp', if_false, if_neg hp,
            if_neg hp']
          exact ih

theorem objGet_objDelete_self {α : Type} (m : List (String × α)) (k : String) :
    objGet (objDelete m k) k = none := by
  induction m with
  | nil => simp [objGet, objDelete]
  | cons p rest ih =>
      by_cases hp : p.1 = k
      · simpa [objDelete, hp] using ih
      · simpa [objDelete, objGet, hp] using ih

theorem objGet_objDelete_ne {α : Type} (m : List (String × α)) {k k' : String}
    (h : k ≠ k') : objGet (objDelete m k) k' = objGet m k' := by
  induction m with
  | nil => simp [objGet, objDelete]
  | cons p rest ih =>
      by_cases hp : p.1 = k
      · have hp' : p.1 ≠ k' := by rw [hp]; exact h
        simp only [objDelete, List.filter_cons] at ih ⊢
        simp [objGet, hp, hp', ih, h]
      · simp only [objDelete, List.filter_cons] at ih ⊢
        by_cases hp' : p.1 = k'
        · simp [objGet, hp, hp', Ne.symm h]
        · simp [objGet, hp, hp', ih]

theorem not_mem_objKeys_objDelete {α : Type} (m : List (String × α))
    (k : String) : k ∉ objKeys (objDelete m k) := by
  intro hmem
  simp only [objKeys, objDelete, List.mem_map, List.mem_filter] at hmem
  obtain ⟨p, ⟨_, hne⟩, hk⟩ := hmem
  rw [hk] at hne
  simp at hne

theorem objSet_objSet {α : Type} (m : List (String × α)) (k : String)
    (v w : α) : objSet (objSet m k v) k w = objSet m k w := by
  induction m with
  | nil => simp [objSet]
  | cons p rest ih =>
      by_cases hp : p.1 = k
      · simp [objSet, hp]
      · simp [objSet, hp, ih]

namespace Server

theorem getOrCreateRoom_found {rooms : List (String × Room)}
    (room password : Option String) {r : Room}
    (hr : objGet rooms (jsOr room "default") = some r) :
    getOrCreateRoom rooms room password =
      (rooms, if r.password == jsOr password "" then some r else none) := by
  simp only [getOrCreateRoom, hr]

theorem getOrCreateRoom_none {rooms : List (String × Room)}
    (room password : Option String)
    (hr : objGet rooms (jsOr room "default") = none) :
    getOrCreateRoom rooms room password =
      (objSet rooms (jsOr room "default") ⟨jsOr password "", [], [], []⟩,
       some ⟨jsOr password "", [], [], []⟩) := by
  simp only [getOrCreateRoom, hr]

theorem broadcast_found {rooms : List (String × Room)} {roomName : String}
    {r : Room} (f : Nat → Bool) (e : LocationChat.EventName)
    (d : LocationChat.Payload) (hr : objGet rooms roomName = some r) :
    broadcast f rooms roomName e d =
      (objSet rooms roomName
        { r with clients := r.clients.filter (fun h => !f h) },
       (r.clients.filter (fun h => !f h)).map
         (fun h => LocationChat.Action.send h e d)) := by
  simp only [broadcast, hr]

theorem message_found_ok (f : Nat → Bool) (now : Int) {s : ServerState}
    {room password : Option String} (name text : Option String) {r : Room}
    (hr : objGet s.rooms (jsOr room "default") = some r)
    (hpw : r.password = jsOr password "")
    (ht : (truthy name && truthy text) = true) :
    message f now s room password name text =
      ({ s with rooms := (objSet s.rooms (jsOr room "default")
          { r with clients := r.clients.filter (fun h => !f h),
                   messages := pushTrim r.messages
                     ⟨name.getD "", text.getD "", now⟩ }) },
       ⟨200, LocationChat.Body.text "ok"⟩,
       (r.clients.filter (fun h => !f h)).map
         (fun h => LocationChat.Action.send h LocationChat.EventName.message
           (LocationChat.Payload.msg ⟨name.getD "", text.getD "", now⟩))) := by
  have hb : (r.password == jsOr password "") = true := by simp [hpw]
  simp only [message, getOrCreateRoom_found room password hr, hb, if_true, ht,
    broadcast_found f _ _ (objGet_objSet_self s.rooms (jsOr room "default") _),
    objSet_objSet]

theorem message_found_skip (f : Nat → Bool) (now : Int) {s : ServerState}
    {room password : Option String} (name text : Option String) {r : Room}
    (hr : objGet s.rooms (jsOr room "default") = some r)
    (hpw : r.password = jsOr password "")
    (ht : (truthy name && truthy text) = false) :
    message f now s room password name text =
      (s, ⟨200, LocationChat.Body.text "ok"⟩, []) := by
  have hb : (r.password == jsOr password "") = true := by simp [hpw]
  simp only [message, getOrCreateRoom_found room password hr, hb, if_true, ht,
    Bool.false_eq_true, if_false]

theorem message_found_badpw (f : Nat → Bool) (now : Int) {s : ServerState}
    {room password : Option String} (name text : Option String) {r : Room}
    (hr : objGet s.rooms (jsOr room "default") = some r)
    (hpw : r.password ≠ jsOr password "") :
    message f now s room password name text =
      (s, ⟨403, LocationChat.Body.text "Invalid room password"⟩, []) := by
  have hb : (r.password == jsOr password "") = false := by simp [hpw]
  simp only [message, getOrCreateRoom_found room password hr, hb,
    Bool.false_eq_true, if_false]

theorem message_create_skip (f : Nat → Bool) (now : Int) {s : ServerState}
    {room password : Option String} (name text : Option String)
    (hr : objGet s.rooms (jsOr room "default") = none)
    (ht : (truthy name && truthy text) = false) :
    message f now s room password name text =
      ({ s with rooms := (objSet s.rooms (jsOr room "default")
          ⟨jsOr password "", [], [], []⟩) },
       ⟨200, LocationChat.Body.text "ok"⟩, []) := by
  simp only [message, getOrCreateRoom_none room password hr, ht,
    Bool.false_eq_true, if_false]

theorem events_found {s : ServerState} {room password : Option String}
    (handle : Nat) {r : Room}
    (hr : objGet s.rooms (jsOr room "default") = some r)
    (hpw : r.password = jsOr password "") :
    events s room password handle =
      ({ s with rooms := (objSet s.rooms (jsOr room "default")
          { r with clients := setAdd r.clients handle }) },
       ⟨200, LocationChat.Body.stream⟩,
       (r.messages.map (fun m =>
          LocationChat.Action.send handle LocationChat.EventName.message
            (LocationChat.Payload.msg m)) ++
        (objValues r.locations).map (fun l =>
          LocationChat.Action.send handle LocationChat.EventName.location
            (LocationChat.Payload.loc l))) ++
       [LocationChat.Action.register handle]) := by
  have hb : (r.password == jsOr password "") = true := by simp [hpw]
  simp only [events, getOrCreateRoom_found room password hr, hb, if_true]

theorem location_found_update (f : Nat → Bool) (now : Int) {s : ServerState}
    {room password : Option String} (name : Option String)
    (lat lon : LocationChat.JsNum) {r : Room}
    (hr : objGet s.rooms (jsOr room "default") = some r)
    (hpw : r.password = jsOr password "")
    (ht : (truthy name && !lat.isNaN && !lon.isNaN) = true) :
    location f now s room password name lat lon =
      ({ s with rooms := (objSet s.rooms (jsOr room "default")
          { r with clients := r.clients.filter (fun h => !f h),
                   locations := objSet r.locations (name.getD "")
                     ⟨name.getD "", lat, lon, now⟩ }) },
       ⟨200, LocationChat.Body.text "ok"⟩,
       (r.clients.filter (fun h => !f h)).map
         (fun h => LocationChat.Action.send h LocationChat.EventName.location
           (LocationChat.Payload.loc ⟨name.getD "", lat, lon, now⟩))) := by
  have hb : (r.password == jsOr password "") = true := by simp [hpw]
  simp only [location, getOrCreateRoom_found room password hr, hb, if_true, ht,
    broadcast_found f _ _ (objGet_objSet_self s.rooms (jsOr room "default") _),
    objSet_objSet]

theorem location_found_skip (f : Nat → Bool) (now : Int) {s : ServerState}
    {room password : Option String} (name : Option String)
    (lat lon : LocationChat.JsNum) {r : Room}
    (hr : objGet s.rooms (jsOr room "default") = some r)
    (hpw : r.password = jsOr password "")
    (ht : (truthy name && !lat.isNaN && !lon.isNaN) = false) :
    location f now s room password name lat lon =
      (s, ⟨200, LocationChat.Body.text "ok"⟩, []) := by
  have hb : (r.password == jsOr password "") = true := by simp [hpw]
  simp only [location, getOrCreateRoom_found room password hr, hb, if_true, ht,
    Bool.false_eq_true, if_false]

theorem message_create_ok (f : Nat → Bool) (now : Int) {s : ServerState}
    {room password : Option String} (name text : Option String)
    (hr : objGet s.rooms (jsOr room "default") = none)
    (ht : (truthy name && truthy text) = true) :
    message f now s room password name text =
      ({ s with rooms := (objSet s.rooms (jsOr room "default")
          ⟨jsOr password "", [],
           pushTrim [] ⟨name.getD "", text.getD "", now⟩, []⟩) },
       ⟨200, LocationChat.Body.text "ok"⟩, []) := by
  simp only [message, getOrCreateRoom_none room password hr, ht, if_true,
    objSet_objSet,
    broadcast_found f _ _ (objGet_objSet_self s.rooms (jsOr room "default") _),
    List.filter_nil, List.map_nil]

theorem events_badpw {s : ServerState} {room password : Option String}
    (handle : Nat) {r : Room}
    (hr : objGet s.rooms (jsOr room "default") = some r)
    (hpw : r.password ≠ jsOr password "") :
    events s room password handle =
      (s, ⟨403, LocationChat.Body.text "Invalid room password"⟩, []) := by
  have hb : (r.password == jsOr password "") = false := by simp [hpw]
  simp only [events, getOrCreateRoom_found room password hr, hb,
    Bool.false_eq_true, if_false]

theorem events_create {s : ServerState} {room password : Option String}
    (handle : Nat) (hr : objGet s.rooms (jsOr room "default") = none) :
    events s room password handle =
      ({ s with rooms := (objSet s.rooms (jsOr room "default")
          ⟨jsOr password "", setAdd [] handle, [], []⟩) },
       ⟨200, LocationChat.Body.stream⟩,
       [LocationChat.Action.register handle]) := by
  simp only [events, getOrCreateRoom_none room password hr, objSet_objSet,
    objValues, List.map_nil, List.nil_append]

theorem message_badpw_eq (f : Nat → Bool) (now : Int) {s : ServerState}
    {room password : Option String} (name text : Option String) {r : Room}
    (hr : objGet s.rooms (jsOr room "default") = some r)
    (hpw : r.password ≠ jsOr password "") :
    message f now s room password name text =
      (s, ⟨403, LocationChat.Body.text "Invalid room password"⟩, []) :=
  message_found_badpw f now name text hr hpw

theorem location_badpw (f : Nat → Bool) (now : Int) {s : ServerState}
    {room password : Option String} (name : Option String)
    (lat lon : LocationChat.JsNum) {r : Room}
    (hr : objGet s.rooms (jsOr room "default") = some r)
    (hpw : r.password ≠ jsOr password "") :
    location f now s room password name lat lon =
      (s, ⟨403, LocationChat.Body.text "Invalid room password"⟩, []) := by
  have hb : (r.password == jsOr password "") = false := by simp [hpw]
  simp only [location, getOrCreateRoom_found room password hr, hb,
    Bool.false_eq_true, if_false]

theorem location_create_skip (f : Nat → Bool) (now : Int) {s : ServerState}
    {room password : Option String} (name : Option String)
    (lat lon : LocationChat.JsNum)
    (hr : objGet s.rooms (jsOr room "default") = none)
    (ht : (truthy name && !lat.isNaN && !lon.isNaN) = false) :
    location f now s room password name lat lon =
      ({ s with rooms := (objSet s.rooms (jsOr room "default")
          ⟨jsOr password "", [], [], []⟩) },
       ⟨200, LocationChat.Body.text "ok"⟩, []) := by
  simp only [location, getOrCreateRoom_none room password hr, ht,
    Bool.false_eq_true, if_false]

theorem location_create_update (f : Nat → Bool) (now : Int)
    {s : ServerState} {room password : Option String} (name : Option String)
    (lat lon : LocationChat.JsNum)
    (hr : objGet s.rooms (jsOr room "default") = none)
    (ht : (truthy name && !lat.isNaN && !lon.isNaN) = true) :
    location f now s room password name lat lon =
      ({ s with rooms := (objSet s.rooms (jsOr room "default")
          ⟨jsOr password "", [], [],
           objSet [] (name.getD "") ⟨name.getD "", lat, lon, now⟩⟩) },
       ⟨200, LocationChat.Body.text "ok"⟩, []) := by
  simp only [location, getOrCreateRoom_none room password hr, ht, if_true,
    objSet_objSet,
    broadcast_found f _ _ (objGet_objSet_self s.rooms (jsOr room "default") _),
    List.filter_nil, List.map_nil]

theorem logout_badpw (f : Nat → Bool) {s : ServerState}
    {room password : Option String} (name : Option String) {r : Room}
    (hr : objGet s.rooms (jsOr room "default") = some r)
    (hpw : r.password ≠ jsOr password "") :
    logout f s room password name =
      (s, ⟨403, LocationChat.Body.text "Invalid room password"⟩, []) := by
  have hb : (r.password == jsOr password "") = false := by simp [hpw]
  simp only [logout, getOrCreateRoom_found room password hr, hb,
    Bool.false_eq_true, if_false]

theorem logout_found_skip (f : Nat → Bool) {s : ServerState}
    {room password : Option String} (name : Option String) {r : Room}
    (hr : objGet s.rooms (jsOr room "default") = some r)
    (hpw : r.password = jsOr password "")
    (ht : (truthy name && (objGet r.locations (name.getD "")).isSome)
      = false) :
    logout f s room password name =
      (s, ⟨200, LocationChat.Body.text "ok"⟩, []) := by
  have hb : (r.password == jsOr password "") = true := by simp [hpw]
  simp only [logout, getOrCreateRoom_found room password hr, hb, if_true, ht,
    Bool.false_eq_true, if_false]

theorem logout_found_del (f : Nat → Bool) {s : ServerState}
    {room password : Option String} (name : Option String) {r : Room}
    (hr : objGet s.rooms (jsOr room "default") = some r)
    (hpw : r.password = jsOr password "")
    (ht : (truthy name && (objGet r.locations (name.getD "")).isSome)
      = true) :
    logout f s room password name =
      ({ s with rooms := (objSet s.rooms (jsOr room "default")
          { r with clients := r.clients.filter (fun h => !f h),
                   locations := objDelete r.locations (name.getD "") }) },
       ⟨200, LocationChat.Body.text "ok"⟩,
       (r.clients.filter (fun h => !f h)).map
         (fun h => LocationChat.Action.send h LocationChat.EventName.remove
           (LocationChat.Payload.rem (name.getD "")))) := by
  have hb : (r.password == jsOr password "") = true := by simp [hpw]
  simp only [logout, getOrCreateRoom_found room password hr, hb, if_true, ht,
    broadcast_found f _ _ (objGet_objSet_self s.rooms (jsOr room "default") _),
    objSet_objSet]

theorem logout_create (f : Nat → Bool) {s : ServerState}
    {room password : Option String} (name : Option String)
    (hr : objGet s.rooms (jsOr room "default") = none) :
    logout f s room password name =
      ({ s with rooms := (objSet s.rooms (jsOr room "default")
          ⟨jsOr password "", [], [], []⟩) },
       ⟨200, LocationChat.Body.text "ok"⟩, []) := by
  simp only [logout, getOrCreateRoom_none room password hr, objGet,
    Option.isSome_none, Bool.and_false, Bool.false_eq_true, if_false]

end Server

theorem jsOr_none (d : String) : jsOr none d = d := rfl

theorem jsOr_some_empty (d : String) : jsOr (some "") d = d := by
  simp [jsOr]

theorem jsOr_default_default :
    jsOr (some "default") "default" = "default" := by
  simp [jsOr]

/-- C4: a redemption of a stored invite whose expiry lies strictly before
the current time deletes the entry and answers 410 "Invite expired" (a
status distinct from the 404 of an unknown token), regardless of the use
counter; the entry is gone afterwards, so no use is consumed. -/
theorem C4_invite_expired (s : Server.ServerState) (t : String)
    (ht : t ≠ "") (inv : Server.Invite) (now : Int)
    (hinv : objGet s.invites t = some inv) (hexp : inv.expiry < now) :
    Server.inviteJoin now s (some t) =
      ({ s with invites := objDelete s.invites t },
       ⟨410, LocationChat.Body.text "Invite expired"⟩, []) ∧
    objGet (Server.inviteJoin now s (some t)).1.invites t = none ∧
    (Server.inviteJoin now s (some t)).2.1.status ≠ 404 := by
  have htr : truthy (some t) = true := by simp [truthy, ht]
  have h : Server.inviteJoin now s (some t) =
      ({ s with invites := objDelete s.invites t },
       ⟨410, LocationChat.Body.text "Invite expired"⟩, []) := by
    simp only [Server.inviteJoin, htr, Bool.not_true, Bool.false_eq_true,
      if_false, Option.getD_some, hinv, hexp, if_true]
  refine ⟨h, ?_, ?_⟩
  · rw [h]
    exact objGet_objDelete_self s.invites t
  · rw [h]
    simp

/-- C4 witness: a concrete expired invite with remaining uses is purged
with status 410. -/
theorem C4_invite_expired_witness :
    Server.inviteJoin 10 ⟨[], [("tok", ⟨"r", "p", 5, 3, 0⟩)]⟩ (some "tok") =
      (⟨[], []⟩, ⟨410, LocationChat.Body.text "Invite expired"⟩, []) := by
  have h := C4_invite_expired ⟨[], [("tok", ⟨"r", "p", 5, 3, 0⟩)]⟩ "tok"
    (by decide) ⟨"r", "p", 5, 3, 0⟩ 10 (by decide) (by decide)
  exact h.1.trans (by decide)

/-- C10: a `/message` request (the GET handler and the POST handler share
this body) that passes the room resolution but has a falsy `name` or
`text` still answers 200 "ok" and still creates the room when absent, yet
appends nothing to the history and broadcasts nothing. -/
theorem C10_message_blank (f : Nat → Bool) (now : Int)
    (s : Server.ServerState) (room password name text : Option String)
    (hmiss : (truthy name && truthy text) = false) :
    (objGet s.rooms (jsOr room "default") = none →
       Server.message f now s room password name text =
         ({ s with rooms := (objSet s.rooms (jsOr room "default")
             ⟨jsOr password "", [], [], []⟩) },
          ⟨200, LocationChat.Body.text "ok"⟩, [])) ∧
    (∀ r : Server.Room, objGet s.rooms (jsOr room "default") = some r →
       r.password = jsOr password "" →
       Server.message f now s room password name text =
         (s, ⟨200, LocationChat.Body.text "ok"⟩, [])) := by
  constructor
  · intro h
    exact Server.message_create_skip f now name text h hmiss
  · intro r hr hpw
    exact Server.message_found_skip f now name text hr hpw hmiss

/-- C10 witness: a blank `text` on an absent room creates the room and
answers ok without storing anything; a blank `name` on an existing room
leaves the whole state untouched. -/
theorem C10_message_blank_witness :
    Server.message (fun _ => false) 0 ⟨[], []⟩ (some "r") (some "p")
        (some "bob") none =
      (⟨[("r", ⟨"p", [], [], []⟩)], []⟩,
       ⟨200, LocationChat.Body.text "ok"⟩, []) ∧
    Server.message (fun _ => false) 0 ⟨[("q", ⟨"w", [5], [], []⟩)], []⟩
        (some "q") (some "w") none (some "hi") =
      (⟨[("q", ⟨"w", [5], [], []⟩)], []⟩,
       ⟨200, LocationChat.Body.text "ok"⟩, []) := by
  constructor
  · exact ((C10_message_blank (fun _ => false) 0 ⟨[], []⟩ (some "r")
      (some "p") (some "bob") none (by decide)).1 (by decide)).trans (by decide)
  · exact ((C10_message_blank (fun _ => false) 0 ⟨[("q", ⟨"w", [5], [], []⟩)], []⟩
      (some "q") (some "w") none (some "hi") (by decide)).2
      ⟨"w", [5], [], []⟩ (by decide) (by decide)).trans (by decide)

/-- C9: for the `/events`, `/message`, `/location` and `/logout` handlers
of the main server, an absent `room` parameter and an empty `room`
parameter behave exactly like `room=default`, and an absent password
behaves like the empty password — so any two such requests address the
same room named "default". -/
theorem C9_default_room (f : Nat → Bool) (now : Int)
    (s : Server.ServerState) :
    (∀ (room password : Option String) (handle : Nat),
       Server.events s none password handle =
         Server.events s (some "") password handle ∧
       Server.events s (some "") password handle =
         Server.events s (some "default") password handle ∧
       Server.events s room none handle =
         Server.events s room (some "") handle) ∧
    (∀ room password name text : Option String,
       Server.message f now s none password name text =
         Server.message f now s (some "") password name text ∧
       Server.message f now s (some "") password name text =
         Server.message f now s (some "default") password name text ∧
       Server.message f now s room none name text =
         Server.message f now s room (some "") name text) ∧
    (∀ (room password name : Option String)
       (lat lon : LocationChat.JsNum),
       Server.location f now s none password name lat lon =
         Server.location f now s (some "") password name lat lon ∧
       Server.location f now s (some "") password name lat lon =
         Server.location f now s (some "default") password name lat lon ∧
       Server.location f now s room none name lat lon =
         Server.location f now s room (some "") name lat lon) ∧
    (∀ room password name : Option String,
       Server.logout f s none password name =
         Server.logout f s (some "") password name ∧
       Server.logout f s (some "") password name =
         Server.logout f s (some "default") password name ∧
       Server.logout f s room none name =
         Server.logout f s room (some "") name) := by
  refine ⟨fun room password handle => ⟨?_, ?_, ?_⟩,
    fun room password name text => ⟨?_, ?_, ?_⟩,
    fun room password name lat lon => ⟨?_, ?_, ?_⟩,
    fun room password name => ⟨?_, ?_, ?_⟩⟩ <;>
  simp only [Server.events, Server.message, Server.location, Server.logout,
    Server.getOrCreateRoom, jsOr_none, jsOr_some_empty, jsOr_default_default]

/-- C8: a broadcast delivers the frame to exactly the handles whose write
does not raise, prunes the raising handles from the subscriber set
(leaving the rest of the room intact), every non-failing handle receives
the frame, and the response of the request that triggered the publish (the
`/message` handler) is identical under any failure pattern. -/
theorem C8_broadcast_isolation (f : Nat → Bool)
    (rooms : List (String × Server.Room)) (roomName : String)
    (e : LocationChat.EventName) (d : LocationChat.Payload)
    (r : Server.Room) (hr : objGet rooms roomName = some r) :
    (Server.broadcast f rooms roomName e d).2 =
      (r.clients.filter (fun h => !f h)).map
        (fun h => LocationChat.Action.send h e d) ∧
    objGet (Server.broadcast f rooms roomName e d).1 roomName =
      some { r with clients := r.clients.filter (fun h => !f h) } ∧
    (∀ h ∈ r.clients, f h = false →
       LocationChat.Action.send h e d ∈
         (Server.broadcast f rooms roomName e d).2) ∧
    (∀ (g : Nat → Bool) (now' : Int) (s : Server.ServerState)
       (room password name text : Option String),
       (Server.message f now' s room password name text).2.1 =
         (Server.message g now' s room password name text).2.1) := by
  rw [Server.broadcast_found f e d hr]
  refine ⟨rfl, objGet_objSet_self rooms roomName _, ?_, ?_⟩
  · intro h hmem hf
    exact List.mem_map_of_mem _ (List.mem_filter.mpr ⟨hmem, by simp [hf]⟩)
  · intro g now' s room password name text
    rcases hg : objGet s.rooms (jsOr room "default") with _ | r0
    · rcases ht : (truthy name && truthy text) with _ | _
      · rw [Server.message_create_skip f now' name text hg ht,
          Server.message_create_skip g now' name text hg ht]
      · rw [Server.message_create_ok f now' name text hg ht,
          Server.message_create_ok g now' name text hg ht]
    · by_cases hpw : r0.password = jsOr password ""
      · rcases ht : (truthy name && truthy text) with _ | _
        · rw [Server.message_found_skip f now' name text hg hpw ht,
            Server.message_found_skip g now' name text hg hpw ht]
        · rw [Server.message_found_ok f now' name text hg hpw ht,
            Server.message_found_ok g now' name text hg hpw ht]
      · rw [Server.message_found_badpw f now' name text hg hpw,
          Server.message_found_badpw g now' name text hg hpw]

/-- C8 witness: with two subscribers of which one write raises, the frame
reaches exactly the surviving subscriber. -/
theorem C8_broadcast_isolation_witness :
    (Server.broadcast (fun h => h == 3) [("r", ⟨"p", [3, 4], [], []⟩)] "r"
        LocationChat.EventName.remove (LocationChat.Payload.rem "x")).2 =
      [LocationChat.Action.send 4 LocationChat.EventName.remove
        (LocationChat.Payload.rem "x")] := by
  have h := C8_broadcast_isolation (fun h => h == 3)
    [("r", ⟨"p", [3, 4], [], []⟩)] "r" LocationChat.EventName.remove
    (LocationChat.Payload.rem "x") ⟨"p", [3, 4], [], []⟩ (by decide)
  exact h.1.trans (by decide)

/-- C1 is refuted by the `src/server.js` variant of the repository: on a
room holding one presence marker, its `/events` handler registers the
subscriber handle first and delivers the replayed `location` frame only
afterwards, so not all replay frames precede the handle's addition to the
subscriber set (the action trace does not end with the registration, as
the claim would require). -/
theorem C1_replay_counterexample :
    (AltServer.events
        ⟨[("r", ⟨"", [], [("alice", ⟨JsNum.finite 1, JsNum.finite 2⟩)],
          []⟩)], []⟩ (some "r") none 7).2.2 =
      [Action.register 7,
       Action.send 7 EventName.location
         (Payload.pos "alice" (JsNum.finite 1) (JsNum.finite 2))] ∧
    (AltServer.events
        ⟨[("r", ⟨"", [], [("alice", ⟨JsNum.finite 1, JsNum.finite 2⟩)],
          []⟩)], []⟩ (some "r") none 7).2.2.getLast? ≠
      some (Action.register 7) := by
  decide

/-- C1 amended: in the main server, `/events` delivers every buffered
message in append order, then every stored presence record (one latest
record per name), and only then registers the handle, leaving the rest of
the room untouched; in the `src/server.js` variant, however, the handle is
registered before the marker frames are replayed (that variant never
buffers messages, so it replays no message frames). -/
theorem C1_replay_amended (s : Server.ServerState)
    (room password : Option String) (handle : Nat) (r : Server.Room)
    (hr : objGet s.rooms (jsOr room "default") = some r)
    (hpw : r.password = jsOr password "")
    (t : AltServer.ServerState) (troom tpassword : Option String)
    (handle2 : Nat) (rt : AltServer.Room)
    (htr : objGet t.rooms (jsOr troom "") = some rt)
    (htpw : rt.password = jsOr tpassword "") :
    Server.events s room password handle =
      ({ s with rooms := (objSet s.rooms (jsOr room "default")
          { r with clients := setAdd r.clients handle }) },
       ⟨200, Body.stream⟩,
       (r.messages.map (fun m => Action.send handle EventName.message
           (Payload.msg m)) ++
        (objValues r.locations).map (fun l => Action.send handle
           EventName.location (Payload.loc l))) ++
       [Action.register handle]) ∧
    AltServer.events t troom tpassword handle2 =
      ({ t with rooms := (objSet t.rooms (jsOr troom "")
          { rt with clients := setAdd rt.clients handle2 }) },
       ⟨200, Body.stream⟩,
       Action.register handle2 ::
         rt.markers.map (fun p => Action.send handle2 EventName.location
           (Payload.pos p.1 p.2.lat p.2.lon))) := by
  refine ⟨Server.events_found handle hr hpw, ?_⟩
  have hb : (rt.password != jsOr tpassword "") = false := by simp [htpw]
  simp only [AltServer.events, htr, hb, Bool.false_eq_true, if_false]

/-- C1 amended witness: a concrete replay on a main-server room with one
buffered message and one presence record, and the variant's trace on a
room with one marker. -/
theorem C1_replay_amended_witness :
    (Server.events ⟨[("r", ⟨"", [4], [⟨"bob", "hi", 5⟩],
        [("bob", ⟨"bob", JsNum.finite 1, JsNum.finite 2, 5⟩)]⟩)], []⟩
      (some "r") none 7).2.2 =
      [Action.send 7 EventName.message (Payload.msg ⟨"bob", "hi", 5⟩),
       Action.send 7 EventName.location
         (Payload.loc ⟨"bob", JsNum.finite 1, JsNum.finite 2, 5⟩),
       Action.register 7] ∧
    (AltServer.events ⟨[("q", ⟨"", [],
        [("amy", ⟨JsNum.finite 3, JsNum.finite 4⟩)], []⟩)], []⟩
      (some "q") none 8).2.2 =
      [Action.register 8,
       Action.send 8 EventName.location
         (Payload.pos "amy" (JsNum.finite 3) (JsNum.finite 4))] := by
  have h := C1_replay_amended
    ⟨[("r", ⟨"", [4], [⟨"bob", "hi", 5⟩],
        [("bob", ⟨"bob", JsNum.finite 1, JsNum.finite 2, 5⟩)]⟩)], []⟩
    (some "r") none 7
    ⟨"", [4], [⟨"bob", "hi", 5⟩],
        [("bob", ⟨"bob", JsNum.finite 1, JsNum.finite 2, 5⟩)]⟩
    (by decide) (by decide)
    ⟨[("q", ⟨"", [], [("amy", ⟨JsNum.finite 3, JsNum.finite 4⟩)], []⟩)], []⟩
    (some "q") none 8
    ⟨"", [], [("amy", ⟨JsNum.finite 3, JsNum.finite 4⟩)], []⟩
    (by decide) (by decide)
  exact ⟨by rw [h.1]; decide, by rw [h.2]; decide⟩

/-- C6 is refuted by the main server's `/location` GET handler: with an
authorised room and a latitude that parses to NaN, the handler answers
200 "ok" and leaves the state unchanged instead of failing with a 400
validation error. -/
theorem C6_location_counterexample :
    Server.location (fun _ => false) 0 ⟨[("r", ⟨"", [], [], []⟩)], []⟩
        (some "r") none (some "bob") JsNum.nan (JsNum.finite 0) =
      (⟨[("r", ⟨"", [], [], []⟩)], []⟩, ⟨200, Body.text "ok"⟩, []) ∧
    (Server.location (fun _ => false) 0 ⟨[("r", ⟨"", [], [], []⟩)], []⟩
        (some "r") none (some "bob") JsNum.nan
        (JsNum.finite 0)).2.1.status ≠ 400 := by
  decide

/-- C6 amended: in the main server's `/location` GET handler an authorised
request always answers 200 "ok": when `name` is falsy or either
coordinate parses to NaN the presence map is untouched and nothing is
broadcast, while any non-NaN pair — including infinite values — updates
the presence entry and broadcasts it; the 400 rejection of non-finite
coordinates exists only in the `src/server.js` variant, which leaves its
state unchanged there. -/
theorem C6_location_amended (f : Nat → Bool) (now : Int)
    (s : Server.ServerState) (room password name : Option String)
    (lat lon : JsNum) (r : Server.Room)
    (hr : objGet s.rooms (jsOr room "default") = some r)
    (hpw : r.password = jsOr password "")
    (t : AltServer.ServerState) (troom tpassword tname : Option String)
    (rt : AltServer.Room)
    (htr : objGet t.rooms (jsOr troom "") = some rt)
    (htpw : rt.password = jsOr tpassword "") :
    ((truthy name && !lat.isNaN && !lon.isNaN) = false →
       Server.location f now s room password name lat lon =
         (s, ⟨200, Body.text "ok"⟩, [])) ∧
    ((truthy name && !lat.isNaN && !lon.isNaN) = true →
       Server.location f now s room password name lat lon =
         ({ s with rooms := (objSet s.rooms (jsOr room "default")
             { r with clients := r.clients.filter (fun h => !f h),
                      locations := objSet r.locations (name.getD "")
                        ⟨name.getD "", lat, lon, now⟩ }) },
          ⟨200, Body.text "ok"⟩,
          (r.clients.filter (fun h => !f h)).map
            (fun h => Action.send h EventName.location
              (Payload.loc ⟨name.getD "", lat, lon, now⟩)))) ∧
    ((lat.isFinite && lon.isFinite) = false →
       AltServer.location t troom tpassword tname lat lon =
         (t, ⟨400, Body.text "Bad Request"⟩, [])) := by
  refine ⟨fun ht => Server.location_found_skip f now name lat lon hr hpw ht,
    fun ht => Server.location_found_update f now name lat lon hr hpw ht,
    fun hfin => ?_⟩
  have hb : (rt.password != jsOr tpassword "") = false := by simp [htpw]
  have hcond : (!lat.isFinite || !lon.isFinite) = true := by
    revert hfin
    cases lat.isFinite <;> cases lon.isFinite <;> simp
  simp only [AltServer.location, htr, hb, Bool.false_eq_true, if_false,
    hcond, if_true]

/-- C6 amended witness: a NaN latitude is silently skipped with 200 "ok";
an infinite latitude does update the presence entry; the variant rejects
the infinite latitude with 400. -/
theorem C6_location_amended_witness :
    Server.location (fun _ => false) 0 ⟨[("r", ⟨"", [], [], []⟩)], []⟩
        (some "r") none (some "amy") JsNum.nan (JsNum.finite 0) =
      (⟨[("r", ⟨"", [], [], []⟩)], []⟩, ⟨200, Body.text "ok"⟩, []) ∧
    Server.location (fun _ => false) 0 ⟨[("r", ⟨"", [], [], []⟩)], []⟩
        (some "r") none (some "amy") JsNum.posInf (JsNum.finite 0) =
      (⟨[("r", ⟨"", [],  [],
          [("amy", ⟨"amy", JsNum.posInf, JsNum.finite 0, 0⟩)]⟩)], []⟩,
       ⟨200, Body.text "ok"⟩, []) ∧
    AltServer.location ⟨[("q", ⟨"", [], [], []⟩)], []⟩ (some "q") none
        (some "amy") JsNum.posInf (JsNum.finite 0) =
      (⟨[("q", ⟨"", [], [], []⟩)], []⟩, ⟨400, Body.text "Bad Request"⟩, []) := by
  have h1 := C6_location_amended (fun _ => false) 0
    ⟨[("r", ⟨"", [], [], []⟩)], []⟩ (some "r") none (some "amy")
    JsNum.nan (JsNum.finite 0) ⟨"", [], [], []⟩ (by decide) (by decide)
    ⟨[("q", ⟨"", [], [], []⟩)], []⟩ (some "q") none (some "amy")
    ⟨"", [], [], []⟩ (by decide) (by decide)
  have h2 := C6_location_amended (fun _ => false) 0
    ⟨[("r", ⟨"", [], [], []⟩)], []⟩ (some "r") none (some "amy")
    JsNum.posInf (JsNum.finite 0) ⟨"", [], [], []⟩ (by decide) (by decide)
    ⟨[("q", ⟨"", [], [], []⟩)], []⟩ (some "q") none (some "amy")
    ⟨"", [], [], []⟩ (by decide) (by decide)
  refine ⟨(h1.1 (by decide)).trans (by decide),
    (h2.2.1 (by decide)).trans (by decide),
    (h2.2.2 (by decide)).trans (by decide)⟩

theorem lastN_of_length_le {α : Type} {l : List α} {k : Nat}
    (h : l.length ≤ k) : lastN k l = l := by
  simp [lastN, Nat.sub_eq_zero_of_le h]

theorem lastN_length_le {α : Type} (k : Nat) (l : List α) :
    (lastN k l).length ≤ k := by
  simp only [lastN, List.length_drop]
  omega

theorem pushTrim_eq_lastN {msgs : List Message} {m : Message}
    (h : msgs.length ≤ 200) :
    Server.pushTrim msgs m = lastN 200 (msgs ++ [m]) := by
  simp only [Server.pushTrim, lastN]
  by_cases hlt : 200 < (msgs ++ [m]).length
  · rw [if_pos hlt]
    have he : (msgs ++ [m]).length - 200 = 1 := by
      simp only [List.length_append] at hlt ⊢
      simp only [List.length_cons, List.length_nil] at hlt ⊢
      omega
    rw [he]
  · rw [if_neg hlt]
    have he : (msgs ++ [m]).length - 200 = 0 := by omega
    rw [he, List.drop_zero]

theorem lastN_append_lastN {α : Type} (k : Nat) (a b : List α) :
    lastN k (lastN k a ++ b) = lastN k (a ++ b) := by
  by_cases h : a.length ≤ k
  · rw [lastN_of_length_le h]
  · unfold lastN
    rw [← List.drop_append_of_le_length (Nat.sub_le a.length k),
      List.drop_drop]
    congr 1
    simp only [List.length_drop, List.length_append]
    omega

set_option maxRecDepth 4000 in
theorem message_fold_history (f : Nat → Bool)
    (room password : Option String)
    (posts : List (String × String × Int)) :
    ∀ (s : Server.ServerState) (r : Server.Room),
      objGet s.rooms (jsOr room "default") = some r →
      r.password = jsOr password "" →
      r.messages.length ≤ 200 →
      (∀ p ∈ posts, p.1 ≠ "" ∧ p.2.1 ≠ "") →
      ∃ r' : Server.Room,
        objGet (posts.foldl (fun st p =>
          (Server.message f p.2.2 st room password (some p.1)
            (some p.2.1)).1) s).rooms (jsOr room "default") = some r' ∧
        r'.password = r.password ∧
        r'.messages = lastN 200 (r.messages ++
          posts.map (fun p => (⟨p.1, p.2.1, p.2.2⟩ : Message))) := by
  induction posts with
  | nil =>
      intro s r hr hpw hlen _
      exact ⟨r, hr, rfl, by
        rw [List.map_nil, List.append_nil, lastN_of_length_le hlen]⟩
  | cons p rest ih =>
      intro s r hr hpw hlen hall
      have hp := hall p (List.mem_cons_self p rest)
      have ht : (truthy (some p.1) && truthy (some p.2.1)) = true := by
        simp [truthy, hp.1, hp.2]
      have hstep := Server.message_found_ok f p.2.2 (some p.1) (some p.2.1)
        hr hpw ht
      simp only [Option.getD_some] at hstep
      have hst : (Server.message f p.2.2 s room password (some p.1)
          (some p.2.1)).1 =
          { s with rooms := (objSet s.rooms (jsOr room "default")
            { r with clients := r.clients.filter (fun h => !f h),
                     messages := Server.pushTrim r.messages
                       ⟨p.1, p.2.1, p.2.2⟩ }) } := by
        rw [hstep]
      have hmsgs : Server.pushTrim r.messages ⟨p.1, p.2.1, p.2.2⟩ =
          lastN 200 (r.messages ++ [⟨p.1, p.2.1, p.2.2⟩]) :=
        pushTrim_eq_lastN hlen
      simp only [List.foldl_cons]
      rw [hst]
      obtain ⟨r', h1, h2, h3⟩ := ih
        { s with rooms := (objSet s.rooms (jsOr room "default")
            { r with clients := r.clients.filter (fun h => !f h),
                     messages := Server.pushTrim r.messages
                       ⟨p.1, p.2.1, p.2.2⟩ }) }
        { r with clients := r.clients.filter (fun h => !f h),
                 messages := Server.pushTrim r.messages ⟨p.1, p.2.1, p.2.2⟩ }
        (objGet_objSet_self _ _ _) hpw
        (by rw [hmsgs]; exact lastN_length_le 200 _)
        (fun q hq => hall q (List.mem_cons_of_mem p hq))
      refine ⟨r', h1, h2, ?_⟩
      rw [h3]
      show lastN 200 (Server.pushTrim r.messages ⟨p.1, p.2.1, p.2.2⟩ ++ _) = _
      rw [hmsgs, lastN_append_lastN, List.append_assoc]
      simp only [List.map_cons, List.singleton_append]

/-- C2: starting from a room with empty history, folding N successful
posts through the `/message` handler (GET and POST share this body) leaves
the room holding exactly the last `min N 200` posted messages in arrival
order; the boundary behaviour is FIFO eviction — appending to a full
200-message history drops the oldest entry. -/
theorem C2_history_bound (f : Nat → Bool) (room password : Option String)
    (posts : List (String × String × Int)) (s : Server.ServerState)
    (r : Server.Room)
    (hr : objGet s.rooms (jsOr room "default") = some r)
    (hpw : r.password = jsOr password "")
    (hempty : r.messages = [])
    (hall : ∀ p ∈ posts, p.1 ≠ "" ∧ p.2.1 ≠ "") :
    (∃ r' : Server.Room,
       objGet (posts.foldl (fun st p =>
         (Server.message f p.2.2 st room password (some p.1)
           (some p.2.1)).1) s).rooms (jsOr room "default") = some r' ∧
       r'.messages =
         lastN 200 (posts.map (fun p => (⟨p.1, p.2.1, p.2.2⟩ : Message))) ∧
       r'.messages.length = min posts.length 200) ∧
    (∀ (msgs : List Message) (m : Message), msgs.length = 200 →
       Server.pushTrim msgs m = msgs.tail ++ [m]) := by
  constructor
  · obtain ⟨r', h1, _, h3⟩ := message_fold_history f room password posts s r
      hr hpw (by simp [hempty]) hall
    rw [hempty, List.nil_append] at h3
    refine ⟨r', h1, h3, ?_⟩
    rw [h3]
    simp only [lastN, List.length_drop, List.length_map]
    omega
  · intro msgs m hlen
    have h200 : 200 < (msgs ++ [m]).length := by simp [hlen]
    simp only [Server.pushTrim, if_pos h200]
    rw [List.drop_append_of_le_length (by omega), List.drop_one]

/-- C2 witness: two concrete posts leave exactly those two messages in
order, and pushing onto a full history of 200 messages evicts the
head. -/
theorem C2_history_bound_witness :
    (∃ r' : Server.Room,
       objGet (([("a", "x", 1), ("b", "y", 2)] :
           List (String × String × Int)).foldl (fun st p =>
         (Server.message (fun _ => false) p.2.2 st (some "r") (some "pw")
           (some p.1) (some p.2.1)).1)
         ⟨[("r", ⟨"pw", [], [], []⟩)], []⟩).rooms (jsOr (some "r") "default")
         = some r' ∧
       r'.messages = lastN 200
         (([("a", "x", 1), ("b", "y", 2)] :
           List (String × String × Int)).map
           (fun p => (⟨p.1, p.2.1, p.2.2⟩ : Message))) ∧
       r'.messages.length = min 2 200) ∧
    Server.pushTrim (List.replicate 200 ⟨"c", "z", 0⟩) ⟨"d", "w", 3⟩ =
      (List.replicate 200 (⟨"c", "z", 0⟩ : Message)).tail ++ [⟨"d", "w", 3⟩]
    := by
  have h := C2_history_bound (fun _ => false) (some "r") (some "pw")
    [("a", "x", 1), ("b", "y", 2)] ⟨[("r", ⟨"pw", [], [], []⟩)], []⟩
    ⟨"pw", [], [], []⟩ (by decide) (by decide) (by decide) (by decide)
  exact ⟨h.1, h.2 _ _ (by rw [List.length_replicate])⟩

theorem inviteJoin_active (now : Int) (s : Server.ServerState) (t : String)
    (ht : t ≠ "") {R P : String} {E m u : Int}
    (hinv : objGet s.invites t = some ⟨R, P, E, m, u⟩)
    (hnexp : ¬ E < now) :
    Server.inviteJoin now s (some t) =
      ({ s with invites := (if m ≤ u + 1 then objDelete s.invites t
          else objSet s.invites t ⟨R, P, E, m, u + 1⟩) },
       ⟨200, Body.inviteInfo R P⟩, []) := by
  have htr : truthy (some t) = true := by simp [truthy, ht]
  simp only [Server.inviteJoin, htr, Bool.not_true, Bool.false_eq_true,
    if_false, Option.getD_some, hinv, if_neg hnexp]

theorem redeemSeq_spec (t : String) (ht : t ≠ "") (R P : String) (E : Int)
    (m : Int) (times : List Int) :
    ∀ (s : Server.ServerState) (u : Int),
      objGet s.invites t = some ⟨R, P, E, m, u⟩ →
      u < m →
      times.length = (m - u).toNat →
      (∀ x ∈ times, x ≤ E) →
      (Server.redeemSeq (some t) times s).1 =
        List.replicate (m - u).toNat ⟨200, Body.inviteInfo R P⟩ ∧
      objGet (Server.redeemSeq (some t) times s).2.invites t = none := by
  induction times with
  | nil =>
      intro s u hinv hu hlen _
      exfalso
      simp only [List.length_nil] at hlen
      omega
  | cons now rest ih =>
      intro s u hinv hu hlen hall
      have hnow : now ≤ E := hall now (List.mem_cons_self now rest)
      have hnexp : ¬ E < now := by omega
      have hstep := inviteJoin_active now s t ht hinv hnexp
      simp only [Server.redeemSeq, hstep]
      by_cases hlast : m ≤ u + 1
      · have hrest : rest = [] := by
          refine List.length_eq_zero.mp ?_
          simp only [List.length_cons] at hlen
          omega
        subst hrest
        simp only [Server.redeemSeq, if_pos hlast]
        constructor
        · have he : (m - u).toNat = 1 := by omega
          rw [he]
          rfl
        · exact objGet_objDelete_self s.invites t
      · have hrec := ih { s with invites := (objSet s.invites t
            ⟨R, P, E, m, u + 1⟩) } (u + 1)
          (objGet_objSet_self _ _ _) (by omega)
          (by simp only [List.length_cons] at hlen; omega)
          (fun x hx => hall x (List.mem_cons_of_mem now hx))
        simp only [if_neg hlast]
        constructor
        · have he : (m - u).toNat = (m - (u + 1)).toNat + 1 := by omega
          rw [he, List.replicate_succ, hrec.1]
        · exact hrec.2

/-- C3: an invite created with `maxUses = m ≥ 1` and not yet used admits
exactly m successful redemptions before its expiry, each returning the
snapshotted room and password; the m-th deletes the token from the store,
and any further redemption answers 404 "Invalid token". -/
theorem C3_invite_multiplicity (s : Server.ServerState) (t : String)
    (ht : t ≠ "") (R P : String) (E m : Int) (hm : 1 ≤ m)
    (hinv : objGet s.invites t = some ⟨R, P, E, m, 0⟩)
    (times : List Int) (hlen : times.length = m.toNat)
    (hall : ∀ x ∈ times, x ≤ E) (later : Int) :
    (Server.redeemSeq (some t) times s).1 =
      List.replicate m.toNat ⟨200, Body.inviteInfo R P⟩ ∧
    objGet (Server.redeemSeq (some t) times s).2.invites t = none ∧
    Server.inviteJoin later (Server.redeemSeq (some t) times s).2
        (some t) =
      ((Server.redeemSeq (some t) times s).2,
       ⟨404, Body.text "Invalid token"⟩, []) := by
  have h := redeemSeq_spec t ht R P E m times s 0 hinv (by omega)
    (by simpa using hlen) hall
  have hm0 : m - 0 = m := by omega
  rw [hm0] at h
  refine ⟨h.1, h.2, ?_⟩
  have htr : truthy (some t) = true := by simp [truthy, ht]
  simp only [Server.inviteJoin, htr, Bool.not_true, Bool.false_eq_true,
    if_false, Option.getD_some, h.2]

/-- C3 witness: a concrete two-use invite is redeemed twice with the
snapshotted pair and a third attempt is rejected with 404. -/
theorem C3_invite_multiplicity_witness :
    (Server.redeemSeq (some "tok") [1, 2]
        ⟨[], [("tok", ⟨"r", "p", 100, 2, 0⟩)]⟩).1 =
      [⟨200, Body.inviteInfo "r" "p"⟩, ⟨200, Body.inviteInfo "r" "p"⟩] ∧
    Server.inviteJoin 3 (Server.redeemSeq (some "tok") [1, 2]
        ⟨[], [("tok", ⟨"r", "p", 100, 2, 0⟩)]⟩).2 (some "tok") =
      ((Server.redeemSeq (some "tok") [1, 2]
          ⟨[], [("tok", ⟨"r", "p", 100, 2, 0⟩)]⟩).2,
       ⟨404, Body.text "Invalid token"⟩, []) := by
  have h := C3_invite_multiplicity ⟨[], [("tok", ⟨"r", "p", 100, 2, 0⟩)]⟩
    "tok" (by decide) "r" "p" 100 2 (by omega)
    (by decide) [1, 2] (by decide) (by decide) 3
  exact ⟨h.1.trans (by decide), h.2.2⟩

/-- C5: deleting an existing room with the matching password closes every
live subscriber handle (one close signal per handle), removes the entry
and answers 200 "deleted", after which `checkRoom` reports 404 and the
name is absent from the `/rooms` listing; a wrong password yields 403 and
an absent room 404, in both cases leaving the state untouched. -/
theorem C5_delete_room (s : Server.ServerState)
    (room password : Option String) :
    (∀ r : Server.Room, objGet s.rooms (jsOr room "default") = some r →
       r.password = jsOr password "" →
       Server.deleteRoom s room password =
         ({ s with rooms := objDelete s.rooms (jsOr room "default") },
          ⟨200, Body.text "deleted"⟩,
          r.clients.map Action.close) ∧
       Server.checkRoom (Server.deleteRoom s room password).1 room
           password =
         ((Server.deleteRoom s room password).1,
          ⟨404, Body.text "not found"⟩, []) ∧
       (Server.roomsIndex (Server.deleteRoom s room password).1).2.1 =
         ⟨200, Body.roomList
           (objKeys (Server.deleteRoom s room password).1.rooms)⟩ ∧
       jsOr room "default" ∉
         objKeys (Server.deleteRoom s room password).1.rooms) ∧
    (∀ r : Server.Room, objGet s.rooms (jsOr room "default") = some r →
       r.password ≠ jsOr password "" →
       Server.deleteRoom s room password =
         (s, ⟨403, Body.text "Invalid room password"⟩, [])) ∧
    (objGet s.rooms (jsOr room "default") = none →
       Server.deleteRoom s room password =
         (s, ⟨404, Body.text "Room not found"⟩, [])) := by
  refine ⟨?_, ?_, ?_⟩
  · intro r hr hpw
    have hb : (r.password == jsOr password "") = true := by simp [hpw]
    have hdel : Server.deleteRoom s room password =
        ({ s with rooms := objDelete s.rooms (jsOr room "default") },
         ⟨200, Body.text "deleted"⟩, r.clients.map Action.close) := by
      simp only [Server.deleteRoom, hr, hb, if_true]
    refine ⟨hdel, ?_, rfl, ?_⟩
    · rw [hdel]
      simp only [Server.checkRoom, objGet_objDelete_self]
    · rw [hdel]
      exact not_mem_objKeys_objDelete s.rooms _
  · intro r hr hpw
    have hb : (r.password == jsOr password "") = false := by simp [hpw]
    simp only [Server.deleteRoom, hr, hb, Bool.false_eq_true, if_false]
  · intro hnone
    simp only [Server.deleteRoom, hnone]

/-- C5 witness: deleting a concrete room with two live subscribers closes
both handles; a wrong password and an unknown room leave the registry
unchanged with 403 and 404 respectively. -/
theorem C5_delete_room_witness :
    Server.deleteRoom ⟨[("r", ⟨"pw", [3, 4], [], []⟩)], []⟩ (some "r")
        (some "pw") =
      (⟨[], []⟩, ⟨200, Body.text "deleted"⟩,
       [Action.close 3, Action.close 4]) ∧
    Server.deleteRoom ⟨[("r", ⟨"pw", [3], [], []⟩)], []⟩ (some "r")
        (some "bad") =
      (⟨[("r", ⟨"pw", [3], [], []⟩)], []⟩,
       ⟨403, Body.text "Invalid room password"⟩, []) ∧
    Server.deleteRoom ⟨[], []⟩ (some "r") (some "pw") =
      (⟨[], []⟩, ⟨404, Body.text "Room not found"⟩, []) := by
  refine ⟨?_, ?_, ?_⟩
  · exact (((C5_delete_room ⟨[("r", ⟨"pw", [3, 4], [], []⟩)], []⟩ (some "r")
      (some "pw")).1 ⟨"pw", [3, 4], [], []⟩ (by decide) (by decide)).1).trans
      (by decide)
  · exact ((C5_delete_room ⟨[("r", ⟨"pw", [3], [], []⟩)], []⟩ (some "r")
      (some "bad")).2.1 ⟨"pw", [3], [], []⟩ (by decide) (by decide)).trans
      (by decide)
  · exact ((C5_delete_room ⟨[], []⟩ (some "r") (some "pw")).2.2
      (by decide)).trans (by decide)

theorem roomsPreservePwd_refl (m : List (String × Server.Room)) :
    Server.roomsPreservePwd m m :=
  fun _ r hr => ⟨r, hr, rfl⟩

theorem roomsPreservePwd_objSet {m : List (String × Server.Room)}
    {k : String} {v : Server.Room}
    (hv : ∀ old : Server.Room, objGet m k = some old →
      v.password = old.password) :
    Server.roomsPreservePwd m (objSet m k v) := by
  intro n r hr
  by_cases hkn : k = n
  · subst hkn
    exact ⟨v, objGet_objSet_self m k v, hv r hr⟩
  · exact ⟨r, by rw [objGet_objSet_ne m v hkn]; exact hr, rfl⟩

theorem pwd_of_preserve {m m' : List (String × Server.Room)}
    (h : Server.roomsPreservePwd m m') {n : String} {r r' : Server.Room}
    (hr : objGet m n = some r) (hr' : objGet m' n = some r') :
    r'.password = r.password := by
  obtain ⟨r2, h2, hp⟩ := h n r hr
  rw [h2] at hr'
  cases hr'
  exact hp

theorem events_preserves_pwd (s : Server.ServerState)
    (room password : Option String) (handle : Nat) :
    Server.roomsPreservePwd s.rooms
      (Server.events s room password handle).1.rooms := by
  rcases hg : objGet s.rooms (jsOr room "default") with _ | r
  · rw [Server.events_create handle hg]
    exact roomsPreservePwd_objSet (fun old h => by rw [hg] at h; cases h)
  · by_cases hpw : r.password = jsOr password ""
    · rw [Server.events_found handle hg hpw]
      refine roomsPreservePwd_objSet (fun old h => ?_)
      rw [hg] at h
      cases h
      rfl
    · rw [Server.events_badpw handle hg hpw]
      exact roomsPreservePwd_refl s.rooms

theorem message_preserves_pwd (f : Nat → Bool) (now : Int)
    (s : Server.ServerState) (room password name text : Option String) :
    Server.roomsPreservePwd s.rooms
      (Server.message f now s room password name text).1.rooms := by
  rcases hg : objGet s.rooms (jsOr room "default") with _ | r
  · rcases ht : (truthy name && truthy text) with _ | _
    · rw [Server.message_create_skip f now name text hg ht]
      exact roomsPreservePwd_objSet (fun old h => by rw [hg] at h; cases h)
    · rw [Server.message_create_ok f now name text hg ht]
      exact roomsPreservePwd_objSet (fun old h => by rw [hg] at h; cases h)
  · by_cases hpw : r.password = jsOr password ""
    · rcases ht : (truthy name && truthy text) with _ | _
      · rw [Server.message_found_skip f now name text hg hpw ht]
        exact roomsPreservePwd_refl s.rooms
      · rw [Server.message_found_ok f now name text hg hpw ht]
        refine roomsPreservePwd_objSet (fun old h => ?_)
        rw [hg] at h
        cases h
        rfl
    · rw [Server.message_found_badpw f now name text hg hpw]
      exact roomsPreservePwd_refl s.rooms

theorem location_preserves_pwd (f : Nat → Bool) (now : Int)
    (s : Server.ServerState) (room password name : Option String)
    (lat lon : JsNum) :
    Server.roomsPreservePwd s.rooms
      (Server.location f now s room password name lat lon).1.rooms := by
  rcases hg : objGet s.rooms (jsOr room "default") with _ | r
  · rcases ht : (truthy name && !lat.isNaN && !lon.isNaN) with _ | _
    · rw [Server.location_create_skip f now name lat lon hg ht]
      exact roomsPreservePwd_objSet (fun old h => by rw [hg] at h; cases h)
    · rw [Server.location_create_update f now name lat lon hg ht]
      exact roomsPreservePwd_objSet (fun old h => by rw [hg] at h; cases h)
  · by_cases hpw : r.password = jsOr password ""
    · rcases ht : (truthy name && !lat.isNaN && !lon.isNaN) with _ | _
      · rw [Server.location_found_skip f now name lat lon hg hpw ht]
        exact roomsPreservePwd_refl s.rooms
      · rw [Server.location_found_update f now name lat lon hg hpw ht]
        refine roomsPreservePwd_objSet (fun old h => ?_)
        rw [hg] at h
        cases h
        rfl
    · rw [Server.location_badpw f now name lat lon hg hpw]
      exact roomsPreservePwd_refl s.rooms

theorem logout_preserves_pwd (f : Nat → Bool) (s : Server.ServerState)
    (room password name : Option String) :
    Server.roomsPreservePwd s.rooms
      (Server.logout f s room password name).1.rooms := by
  rcases hg : objGet s.rooms (jsOr room "default") with _ | r
  · rw [Server.logout_create f name hg]
    exact roomsPreservePwd_objSet (fun old h => by rw [hg] at h; cases h)
  · by_cases hpw : r.password = jsOr password ""
    · rcases ht : (truthy name && (objGet r.locations
          (name.getD "")).isSome) with _ | _
      · rw [Server.logout_found_skip f name hg hpw ht]
        exact roomsPreservePwd_refl s.rooms
      · rw [Server.logout_found_del f name hg hpw ht]
        refine roomsPreservePwd_objSet (fun old h => ?_)
        rw [hg] at h
        cases h
        rfl
    · rw [Server.logout_badpw f name hg hpw]
      exact roomsPreservePwd_refl s.rooms

theorem checkRoom_state (s : Server.ServerState)
    (room password : Option String) :
    (Server.checkRoom s room password).1 = s := by
  simp only [Server.checkRoom]
  split
  · rfl
  · split <;> rfl

theorem inviteJoin_rooms (now : Int) (s : Server.ServerState)
    (token : Option String) :
    (Server.inviteJoin now s token).1.rooms = s.rooms := by
  simp only [Server.inviteJoin]
  split
  · rfl
  · split
    · rfl
    · split <;> rfl

theorem inviteCreate_rooms (now : Int) (token : String)
    (s : Server.ServerState) (room password : Option String)
    (e mu : Option Int) :
    (Server.inviteCreate now token s room password e mu).1.rooms =
      s.rooms := by
  simp only [Server.inviteCreate]
  split
  · rfl
  · split
    · rfl
    · split <;> rfl

/-- C7 is refuted by the `src/server.js` variant of the repository: its
`/invite/create`, given a non-empty password for an existing room,
overwrites the stored room password in place — neither a creation nor a
recreation of the room — and still answers 200. -/
theorem C7_password_counterexample :
    objGet (AltServer.inviteCreate "tok"
        ⟨[("r", ⟨"old", [], [], []⟩)], []⟩ (some "r")
        (some "new")).1.rooms "r" =
      some ⟨"new", [], [], []⟩ ∧
    ("new" : String) ≠ "old" ∧
    (AltServer.inviteCreate "tok" ⟨[("r", ⟨"old", [], [], []⟩)], []⟩
        (some "r") (some "new")).2.1.status = 200 := by
  decide

/-- C7 amended: in the main server no request ever changes the password of
an existing room — the password is fixed at creation until the room is
deleted — and in particular a `checkRoom` with a non-matching password
answers 403 "invalid" and leaves the whole state (password, messages,
presence, subscribers, invites) unchanged; the `src/server.js` variant, by
contrast, lets `/invite/create` overwrite an existing room's password. -/
theorem C7_password_immutable (f : Nat → Bool) (now : Int)
    (s : Server.ServerState) (req : Server.Request) (n : String)
    (r r' : Server.Room) (hr : objGet s.rooms n = some r)
    (hr' : objGet (Server.step f now s req).1.rooms n = some r') :
    r'.password = r.password ∧
    (∀ (room password : Option String) (rr : Server.Room),
       objGet s.rooms (jsOr room "default") = some rr →
       rr.password ≠ jsOr password "" →
       Server.checkRoom s room password =
         (s, ⟨403, Body.text "invalid"⟩, [])) := by
  constructor
  · cases req with
    | events room password handle =>
        exact pwd_of_preserve (events_preserves_pwd s room password handle)
          hr hr'
    | message room password name text =>
        exact pwd_of_preserve
          (message_preserves_pwd f now s room password name text) hr hr'
    | location room password name lat lon =>
        exact pwd_of_preserve
          (location_preserves_pwd f now s room password name lat lon) hr hr'
    | logout room password name =>
        exact pwd_of_preserve
          (logout_preserves_pwd f s room password name) hr hr'
    | roomsIndex =>
        simp only [Server.step, Server.roomsIndex] at hr'
        rw [hr] at hr'
        cases hr'
        rfl
    | deleteRoom room password =>
        rcases hg : objGet s.rooms (jsOr room "default") with _ | rr
        · simp only [Server.step, Server.deleteRoom, hg] at hr'
          rw [hr] at hr'
          cases hr'
          rfl
        · rcases hb : (rr.password == jsOr password "") with _ | _
          · simp only [Server.step, Server.deleteRoom, hg, hb,
              Bool.false_eq_true, if_false] at hr'
            rw [hr] at hr'
            cases hr'
            rfl
          · simp only [Server.step, Server.deleteRoom, hg, hb,
              if_true] at hr'
            by_cases hkn : jsOr room "default" = n
            · subst hkn
              rw [objGet_objDelete_self] at hr'
              cases hr'
            · rw [objGet_objDelete_ne s.rooms hkn] at hr'
              rw [hr] at hr'
              cases hr'
              rfl
    | inviteCreate room password e mu token =>
        simp only [Server.step] at hr'
        rw [inviteCreate_rooms now token s room password e mu] at hr'
        rw [hr] at hr'
        cases hr'
        rfl
    | inviteJoin token =>
        simp only [Server.step] at hr'
        rw [inviteJoin_rooms now s token] at hr'
        rw [hr] at hr'
        cases hr'
        rfl
    | checkRoom room password =>
        simp only [Server.step] at hr'
        rw [checkRoom_state s room password] at hr'
        rw [hr] at hr'
        cases hr'
        rfl
  · intro room password rr hrr hpw
    have hb : (rr.password == jsOr password "") = false := by simp [hpw]
    simp only [Server.checkRoom, hrr, hb, Bool.false_eq_true, if_false]

/-- C7 amended witness: a concrete message post leaves an existing room's
password unchanged, and a wrong-password `checkRoom` against it is a pure
403. -/
theorem C7_password_immutable_witness :
    ((⟨"pw", [], [⟨"a", "b", 7⟩], []⟩ : Server.Room)).password =
      ((⟨"pw", [], [], []⟩ : Server.Room)).password ∧
    Server.checkRoom ⟨[("r", ⟨"pw", [], [], []⟩)], []⟩ (some "r")
        (some "bad") =
      (⟨[("r", ⟨"pw", [], [], []⟩)], []⟩,
       ⟨403, Body.text "invalid"⟩, []) := by
  have h := C7_password_immutable (fun _ => false) 7
    ⟨[("r", ⟨"pw", [], [], []⟩)], []⟩
    (Server.Request.message (some "r") (some "pw") (some "a") (some "b"))
    "r" ⟨"pw", [], [], []⟩ ⟨"pw", [], [⟨"a", "b", 7⟩], []⟩
    (by decide) (by decide)
  exact ⟨h.1, h.2 (some "r") (some "bad") ⟨"pw", [], [], []⟩ (by decide)
    (by decide)⟩

end LocationChat
